import Mathlib

/-!
Verification of the xlsx/csv → PostgreSQL loader.

Shallow embedding of the pipeline:
* `JsValue` models the JavaScript values flowing through the transformer
  (`null` and `undefined` are distinct, as in JS).
* `Csv.transformValue` / `Xlsx.transformValue` embed the two `transformValue`
  functions (src/lib/csv.mjs and the xlsx reader).
* The CSV row-processing loop of `parseAndTransformCSV` is embedded as a fold
  (`Csv.processRows`), together with header-map construction and column
  resolution.
* `resolveDuplicateColumns` embeds the duplicate-name disambiguation passes of
  `getTableConfigForAWorkSheet` (src/lib/getTableConfig.mjs).
* The Promote phase (`swapTables`, src/lib/db.mjs) is embedded as a driver
  issuing SQL statements against a database session with an explicit
  transaction, where each statement may also fail through an external oracle.

External libraries are modelled at their interface: `moment.tz(value, fmt, tz)`
is a format parser plus a fixed-offset timezone conversion (the claims only use
Asia/Kolkata, a constant UTC+05:30 zone), `Number(...)` is the ECMAScript
string-to-number conversion, and PostgreSQL is a name-keyed store of tables
with transactional BEGIN/COMMIT/ROLLBACK semantics.
-/

namespace XlsxToPsql

/-- A JavaScript number: finite (modelled as a rational) or an infinity.
`NaN` is represented as `none` at the `Option JsNumber` level. -/
inductive JsNumber where
  | fin (q : ℚ)
  | posInf
  | negInf
  deriving DecidableEq, Repr

/-- A JavaScript value as it flows through `transformValue`:
`null` and `undefined` are distinct. Timestamps come out as ISO strings
(`moment.toISOString()` returns a string). -/
inductive JsValue where
  | null
  | undefined
  | str (s : String)
  | num (n : JsNumber)
  deriving DecidableEq, Repr

/-- One entry of the table configuration (a ColumnSpec).
`sqlColumn`, `fieldType` and `isHyperlink` may be absent (JS `undefined`). -/
structure ColumnSpec where
  header : String
  sqlColumn : Option String := none
  fieldType : Option String := none
  primary : Bool := false
  notNull : Bool := false
  skip : Bool := false
  needIndex : Bool := false
  isHyperlink : Option Bool := none
  deriving DecidableEq, Repr

/-! ### String helpers (JS semantics) -/

/-- The whitespace characters recognised by the `\s` class and `trim()`
for the inputs we model (ASCII whitespace). -/
def jsWhitespace (c : Char) : Bool :=
  c = ' ' || c = '\t' || c = '\n' || c = '\r' || c = '\x0b' || c = '\x0c'

/-- JS `String.prototype.trim()`. -/
def jsTrim (s : String) : String :=
  String.mk (((s.toList.dropWhile jsWhitespace).reverse.dropWhile jsWhitespace).reverse)

/-- JS `String.prototype.toLowerCase()` (ASCII case mapping suffices here). -/
def jsToLowerCase (s : String) : String :=
  String.mk (s.toList.map Char.toLower)

/-- Helper for `collapseWs`: the flag records whether the previous character
was part of a whitespace run (whose single replacement space was already
emitted). -/
def collapseWsAux : Bool → List Char → List Char
  | _, [] => []
  | prevWs, c :: cs =>
    if jsWhitespace c then
      if prevWs then collapseWsAux true cs
      else ' ' :: collapseWsAux true cs
    else c :: collapseWsAux false cs

/-- Collapse every run of whitespace to a single space:
`value.replace(/\s+/g, ' ')`. -/
def collapseWs (l : List Char) : List Char :=
  collapseWsAux false l

/-- Cleanup `value.replace(/\s+/g, ' ').trim()` applied to CSV cell
values and to header names. -/
def cleanWs (s : String) : String :=
  jsTrim (String.mk (collapseWs s.toList))

/-- Is `c` in `[a-z0-9]`? (used after lowercasing). -/
def isLowerAlnum (c : Char) : Bool :=
  ('a' ≤ c && c ≤ 'z') || ('0' ≤ c && c ≤ '9')

/-- Collapse consecutive underscores to one. -/
def squeezeUnderscores : List Char → List Char
  | [] => []
  | [c] => [c]
  | c :: d :: rest =>
    if c = '_' && d = '_' then squeezeUnderscores (d :: rest)
    else c :: squeezeUnderscores (d :: rest)

/-- Drop `'_'` from both ends of a character list. -/
def trimUnderscores (l : List Char) : List Char :=
  ((l.dropWhile (· = '_')).reverse.dropWhile (· = '_')).reverse

/-- Model of `sanitizeColumnName` from src/lib/csv.mjs: lowercase, replace runs of
characters outside `[a-z0-9]` by one underscore, strip leading/trailing
underscores, collapse repeated underscores. -/
def sanitizeColumnName (name : String) : String :=
  let lowered := jsToLowerCase name
  let replaced := lowered.toList.map (fun c => if isLowerAlnum c then c else '_')
  String.mk (trimUnderscores (squeezeUnderscores replaced))

/-! ### ECMAScript string-to-number conversion (`Number(...)`)

Models the `StringNumericLiteral` grammar: optional sign with a decimal
literal or `Infinity`, or an unsigned binary/octal/hex literal.  The result is
`none` exactly when the conversion yields `NaN`. -/

/-- Decimal value of one digit character. -/
def digitVal (ch : Char) : Nat :=
  ch.toNat - '0'.toNat

/-- Digit value in a given radix, if `ch` is a digit of that radix. -/
def radixDigit (radix : Nat) (ch : Char) : Option Nat :=
  let v : Option Nat :=
    if '0' ≤ ch && ch ≤ '9' then some (digitVal ch)
    else if 'a' ≤ ch && ch ≤ 'f' then some (ch.toNat - 'a'.toNat + 10)
    else if 'A' ≤ ch && ch ≤ 'F' then some (ch.toNat - 'A'.toNat + 10)
    else none
  match v with
  | some d => if d < radix then some d else none
  | none => none

/-- Read all characters as digits of `radix` (the list must be nonempty). -/
def digitsToNat (radix : Nat) : List Char → Option Nat
  | [] => none
  | cs =>
    cs.foldl (fun sofar ch =>
      match sofar, radixDigit radix ch with
      | some n, some d => some (radix * n + d)
      | _, _ => none) (some 0)

/-- Value of a list of decimal digits as a natural number (`0` for `[]`). -/
def decDigitsVal (cs : List Char) : Nat :=
  cs.foldl (fun sofar ch => 10 * sofar + digitVal ch) 0

/-- Parse the optional exponent part `[eE] [+-]? digits`, consuming all input;
returns the signed exponent, or `none` on a malformed exponent. -/
def parseExponent : List Char → Option ℤ
  | [] => some 0
  | c :: rest =>
    if c = 'e' || c = 'E' then
      match rest with
      | '+' :: ds => if ds ≠ [] && ds.all Char.isDigit then some (decDigitsVal ds) else none
      | '-' :: ds => if ds ≠ [] && ds.all Char.isDigit then some (-(decDigitsVal ds : ℤ)) else none
      | ds => if ds ≠ [] && ds.all Char.isDigit then some (decDigitsVal ds) else none
    else none

/-- Parse an unsigned decimal literal `digits [. digits] [exp]` or
`. digits [exp]`, consuming all input. -/
def parseUnsignedDecimal (cs : List Char) : Option ℚ :=
  let intDigits := cs.takeWhile Char.isDigit
  let rest := cs.drop intDigits.length
  match rest with
  | '.' :: r2 =>
    let fracDigits := r2.takeWhile Char.isDigit
    let rest2 := r2.drop fracDigits.length
    if intDigits = [] && fracDigits = [] then none
    else
      match parseExponent rest2 with
      | some e =>
        some (((decDigitsVal intDigits : ℚ) +
               (decDigitsVal fracDigits : ℚ) / ((10 : ℚ) ^ fracDigits.length)) *
              (10 : ℚ) ^ e)
      | none => none
  | _ =>
    if intDigits = [] then none
    else
      match parseExponent rest with
      | some e => some ((decDigitsVal intDigits : ℚ) * (10 : ℚ) ^ e)
      | none => none

/-- Parse a signed decimal literal or `Infinity`. -/
def parseSignedDecimal (cs : List Char) : Option JsNumber :=
  let core : List Char → Bool → Option JsNumber := fun body neg =>
    if body = "Infinity".toList then
      some (if neg then JsNumber.negInf else JsNumber.posInf)
    else
      match parseUnsignedDecimal body with
      | some q => some (.fin (if neg then -q else q))
      | none => none
  match cs with
  | '+' :: body => core body false
  | '-' :: body => core body true
  | body => core body false

/-- ECMAScript `Number(string)`: `none` means `NaN`. -/
def jsStringToNumber (s : String) : Option JsNumber :=
  let t := (s.toList.dropWhile jsWhitespace).reverse.dropWhile jsWhitespace |>.reverse
  match t with
  | [] => some (.fin 0)
  | '0' :: x :: rest =>
    if x = 'x' || x = 'X' then (digitsToNat 16 rest).map (fun n => .fin n)
    else if x = 'o' || x = 'O' then (digitsToNat 8 rest).map (fun n => .fin n)
    else if x = 'b' || x = 'B' then (digitsToNat 2 rest).map (fun n => .fin n)
    else parseSignedDecimal t
  | _ => parseSignedDecimal t

/-- JS `Number(value)` on a `JsValue` (`none` = `NaN`). -/
def jsToNumber : JsValue → Option JsNumber
  | .undefined => none
  | .null => some (.fin 0)
  | .num n => some n
  | .str s => jsStringToNumber s

/-- JS `String(value)` for the values we model. -/
def jsToString : JsValue → String
  | .null => "null"
  | .undefined => "undefined"
  | .str s => s
  | .num (.fin q) => toString q
  | .num .posInf => "Infinity"
  | .num .negInf => "-Infinity"

/-! ### Calendar arithmetic and the `moment.tz` interface

`moment.tz(value, 'YYYY-MM-DD HH:mm', timezone)` is modelled as: parse the
text in that shape, validate the calendar date, then subtract the timezone's
UTC offset (in minutes) to obtain an absolute instant, counted in minutes
since the Unix epoch.  `toISOString()` renders that instant in UTC. -/

/-- A parsed local date-time at minute precision. -/
structure DateTimeM where
  y : Int
  mo : Nat
  d : Nat
  h : Nat
  mi : Nat
  deriving DecidableEq, Repr

/-- Is `y` a leap year (proleptic Gregorian)? -/
def isLeapYear (y : Int) : Bool :=
  (y % 4 = 0 && y % 100 ≠ 0) || y % 400 = 0

/-- Days in month `mo` of year `y`. -/
def daysInMonth (y : Int) (mo : Nat) : Nat :=
  if mo = 2 then (if isLeapYear y then 29 else 28)
  else if mo = 4 || mo = 6 || mo = 9 || mo = 11 then 30
  else 31

/-- Days from 1970-01-01 to `y-m-d` (Howard Hinnant's `days_from_civil`). -/
def daysFromCivil (y : Int) (m d : Nat) : Int :=
  let y2 : Int := if m ≤ 2 then y - 1 else y
  let era : Int := (if 0 ≤ y2 then y2 else y2 - 399) / 400
  let yoe : Int := y2 - era * 400
  let mp : Int := if 2 < m then (m : Int) - 3 else (m : Int) + 9
  let doy : Int := (153 * mp + 2) / 5 + (d : Int) - 1
  let doe : Int := yoe * 365 + yoe / 4 - yoe / 100 + doy
  era * 146097 + doe - 719468

/-- Inverse of `daysFromCivil` (Hinnant's `civil_from_days`). -/
def civilFromDays (z0 : Int) : Int × Nat × Nat :=
  let z : Int := z0 + 719468
  let era : Int := (if 0 ≤ z then z else z - 146096) / 146097
  let doe : Nat := (z - era * 146097).toNat
  let yoe : Nat := (doe - doe / 1460 + doe / 36524 - doe / 146096) / 365
  let doy : Nat := doe - (365 * yoe + yoe / 4 - yoe / 100)
  let mp : Nat := (5 * doy + 2) / 153
  let d : Nat := doy - (153 * mp + 2) / 5 + 1
  let m : Nat := if mp < 10 then mp + 3 else mp - 9
  (Int.ofNat yoe + era * 400 + (if m ≤ 2 then 1 else 0), m, d)

/-- Left-pad the decimal representation of `n` with zeros to width `w`. -/
def padNat (w : Nat) (n : Nat) : String :=
  let s := toString n
  String.mk (List.replicate (w - s.length) '0') ++ s

/-- Render an instant (minutes since the Unix epoch) the way
`moment.toISOString()` does: UTC, millisecond precision. -/
def isoString (instant : Int) : String :=
  let day : Int := instant / 1440 - (if instant % 1440 < 0 then 1 else 0)
  let rem : Int := instant - day * 1440
  let c := civilFromDays day
  let h : Nat := (rem / 60).toNat
  let mi : Nat := (rem % 60).toNat
  padNat 4 c.1.toNat ++ "-" ++ padNat 2 c.2.1 ++ "-" ++ padNat 2 c.2.2 ++
    "T" ++ padNat 2 h ++ ":" ++ padNat 2 mi ++ ":00.000Z"


/-- Parse a text timestamp of the exact shape `YYYY-MM-DD HH:mm`. -/
def parseTimestampText (s : String) : Option DateTimeM :=
  match s.toList with
  | [y1, y2, y3, y4, '-', m1, m2, '-', d1, d2, ' ', h1, h2, ':', n1, n2] =>
    if [y1, y2, y3, y4, m1, m2, d1, d2, h1, h2, n1, n2].all Char.isDigit then
      some { y := Int.ofNat (digitVal y1 * 1000 + digitVal y2 * 100 + digitVal y3 * 10 + digitVal y4)
             mo := digitVal m1 * 10 + digitVal m2
             d := digitVal d1 * 10 + digitVal d2
             h := digitVal h1 * 10 + digitVal h2
             mi := digitVal n1 * 10 + digitVal n2 }
    else none
  | _ => none

/-- The validity check behind `moment.isValid()` for this format. -/
def DateTimeM.valid (dt : DateTimeM) : Bool :=
  1 ≤ dt.mo && dt.mo ≤ 12 && 1 ≤ dt.d && dt.d ≤ daysInMonth dt.y dt.mo &&
    dt.h ≤ 23 && dt.mi ≤ 59

/-- Minutes since the epoch of a local date-time read as if it were UTC. -/
def DateTimeM.localEpochMinutes (dt : DateTimeM) : Int :=
  daysFromCivil dt.y dt.mo dt.d * 1440 + (dt.h : Int) * 60 + (dt.mi : Int)

/-- A timezone, modelled by its constant UTC offset in minutes
(Asia/Kolkata, the zone the claims use, is the constant +330). -/
abbrev TzOffset := Int

/-- Model of `moment.tz(value, 'YYYY-MM-DD HH:mm', timezone)` followed by
`isValid()`: the absolute instant, or `none` when the moment is invalid
(non-string input, wrong shape, or calendar overflow). -/
def momentTzParse (v : JsValue) (tz : TzOffset) : Option Int :=
  match v with
  | .str s =>
    match parseTimestampText s with
    | some dt => if dt.valid then some (dt.localEpochMinutes - tz) else none
    | none => none
  | _ => none

/-- Model of `XLSX.SSF.parse_date_code` on a numeric Excel date serial, composed with
the same `moment.tz` conversion (serial day 25569 is 1970-01-01; the
fractional part encodes the time of day). -/
def excelSerialToDateTime (q : ℚ) : DateTimeM :=
  let days : Int := ⌊q⌋
  let frac : ℚ := q - (days : ℚ)
  let totalMinutes : Nat := (⌊frac * 1440⌋).toNat
  let c := civilFromDays (days - 25569)
  { y := c.1, mo := c.2.1, d := c.2.2, h := totalMinutes / 60, mi := totalMinutes % 60 }

/-! ### The value transformers

`ThrowOracle` lets the environment make the primitives inside the `try` block
throw, so that totality (claim C7) is a statement about the `try`/`catch`
structure rather than true by construction. -/

/-- Which type-specific branch throws a JS exception (externally injected). -/
structure ThrowOracle where
  tsThrow : Bool
  numThrow : Bool
  strThrow : Bool
  deriving DecidableEq, Repr

/-- The oracle of a normal run: nothing throws. -/
def noThrow : ThrowOracle := ⟨false, false, false⟩

/-- Dispatch key `config.fieldType?.toLowerCase()`. -/
def fieldTypeLower (config : ColumnSpec) : Option String :=
  config.fieldType.map jsToLowerCase

namespace Csv

/-- The `try` block of `transformValue` in src/lib/csv.mjs: the
`switch (config.fieldType?.toLowerCase())` over timestamp / number /
string-or-default. -/
def transformValueBody (oracle : ThrowOracle) (v : JsValue) (config : ColumnSpec)
    (tz : TzOffset) : Except String JsValue :=
  if fieldTypeLower config = some "timestamp" then
    if oracle.tsThrow then .error "timestamp branch threw" else
    match momentTzParse v tz with
    | some instant => .ok (.str (isoString instant))
    | none => .ok .null
  else if fieldTypeLower config = some "number" then
    if oracle.numThrow then .error "number branch threw" else
    .ok (match jsToNumber v with
         | some n => .num n
         | none => .null)
  else
    if oracle.strThrow then .error "default branch threw" else
    .ok v

/-- The whole `transformValue` of src/lib/csv.mjs as the JS engine runs it:
sentinel check, then the `try` block with its `catch` returning null.
`Except.error` in the result would mean an uncaught exception. -/
def transformValueRun (oracle : ThrowOracle) (v : JsValue) (config : ColumnSpec)
    (tz : TzOffset) : Except String JsValue :=
  if v = .str "" ∨ v = .str "-" then .ok .null
  else
    match transformValueBody oracle v config tz with
    | .ok out => .ok out
    | .error _ => .ok .null

/-- The function `transformValue` as a value-level function (its run never errors). -/
def transformValue (oracle : ThrowOracle) (v : JsValue) (config : ColumnSpec)
    (tz : TzOffset) : JsValue :=
  match transformValueRun oracle v config tz with
  | .ok out => out
  | .error _ => .null

end Csv

namespace Xlsx

/-- The `try` block of `transformValue` in the xlsx reader: numeric Excel
date serials are decoded first in the timestamp branch; the default branch
stringifies and whitespace-normalizes. -/
def transformValueBody (oracle : ThrowOracle) (v : JsValue) (config : ColumnSpec)
    (tz : TzOffset) : Except String JsValue :=
  if fieldTypeLower config = some "timestamp" then
    if oracle.tsThrow then .error "timestamp branch threw" else
    match v with
    | .num (.fin q) =>
      let dt := excelSerialToDateTime q
      if dt.valid then .ok (.str (isoString (dt.localEpochMinutes - tz))) else .ok .null
    | _ =>
      match momentTzParse v tz with
      | some instant => .ok (.str (isoString instant))
      | none => .ok .null
  else if fieldTypeLower config = some "number" then
    if oracle.numThrow then .error "number branch threw" else
    .ok (match jsToNumber v with
         | some n => .num n
         | none => .null)
  else
    if oracle.strThrow then .error "default branch threw" else
    .ok (.str (cleanWs (jsToString v)))

/-- The whole xlsx `transformValue` as run by the engine: its sentinel also
covers `undefined` and `null`. -/
def transformValueRun (oracle : ThrowOracle) (v : JsValue) (config : ColumnSpec)
    (tz : TzOffset) : Except String JsValue :=
  if v = .str "" ∨ v = .str "-" ∨ v = .undefined ∨ v = .null then .ok .null
  else
    match transformValueBody oracle v config tz with
    | .ok out => .ok out
    | .error _ => .ok .null

/-- The xlsx `transformValue` as a value-level function. -/
def transformValue (oracle : ThrowOracle) (v : JsValue) (config : ColumnSpec)
    (tz : TzOffset) : JsValue :=
  match transformValueRun oracle v config tz with
  | .ok out => out
  | .error _ => .null

end Xlsx

/-! ### The CSV row pipeline (`parseAndTransformCSV`, src/lib/csv.mjs)

The header row builds `headerIndexMap` (a JS `Map`, so for duplicate cleaned
headers the last `set` wins), then `columns` is resolved from the table
configuration, and each data row is either counted as empty, counted as
skipped, or transformed and appended. -/

namespace Csv

/-- Resolved name `config.sqlColumn || sanitizeColumnName(config.header)` (JS `||`:
an absent or empty `sqlColumn` falls back to the sanitized header). -/
def resolvedName (config : ColumnSpec) : String :=
  match config.sqlColumn with
  | some s => if s = "" then sanitizeColumnName config.header else s
  | none => sanitizeColumnName config.header

/-- The header pass: `headerIndexMap.set(cleanHeader, index)` for each header
cell, in order; a later duplicate overwrites an earlier one. -/
def buildHeaderIndexMap (headerRow : List String) : String → Option Nat :=
  fun h => List.lookup h (((headerRow.enum.map (fun p => (cleanWs p.2, p.1))).reverse))

/-- Column resolution: for each config entry in configuration order, push its
resolved name when its (raw) header is present in the map; `skip` is not
consulted here. -/
def resolveColumns (tableConfig : List ColumnSpec) (hmap : String → Option Nat) :
    List String :=
  tableConfig.filterMap fun config =>
    if (hmap config.header).isSome then some (resolvedName config) else none

/-- Indexing `row[index]` as a JS value: out-of-range (or an absent index) is
`undefined`. -/
def rowAt (row : List String) : Option Nat → JsValue
  | some i =>
    match row.get? i with
    | some s => .str s
    | none => .undefined
  | none => .undefined

/-- Transform one data row: for each resolved column name, find the first
config entry resolving to it, fetch the cell by the header's index, clean
whitespace on strings, and apply `transformValue`. -/
def transformRow (tableConfig : List ColumnSpec) (hmap : String → Option Nat)
    (columns : List String) (tz : TzOffset) (row : List String) : List JsValue :=
  columns.map fun colName =>
    match tableConfig.find? (fun c => resolvedName c = colName) with
    | none => .null
    | some config =>
      let value := rowAt row (hmap config.header)
      let value := match value with
                   | .str s => .str (cleanWs s)
                   | other => other
      transformValue noThrow value config tz

/-- Is a raw row empty in the sense of
`row.every(val => !val || String(val).trim() === '')`? -/
def isBlankRow (row : List String) : Bool :=
  row.all fun v => jsTrim v = ""

/-- The mutable state of the data-row loop. -/
structure LoopState where
  transformedData : List (List JsValue)
  emptyRows : Nat
  skippedRows : Nat
  deriving DecidableEq, Repr

/-- One iteration of the `.on('data', ...)` handler for a data row. -/
def processDataRow (tableConfig : List ColumnSpec) (hmap : String → Option Nat)
    (columns : List String) (tz : TzOffset) (st : LoopState) (row : List String) :
    LoopState :=
  if isBlankRow row then
    { st with emptyRows := st.emptyRows + 1 }
  else
    let tr := transformRow tableConfig hmap columns tz row
    if tr.all (· = JsValue.null) then
      { st with skippedRows := st.skippedRows + 1 }
    else
      { st with transformedData := st.transformedData ++ [tr] }

/-- The data-row loop over all rows after the header. -/
def processRows (tableConfig : List ColumnSpec) (hmap : String → Option Nat)
    (columns : List String) (tz : TzOffset) (rows : List (List String)) : LoopState :=
  rows.foldl (processDataRow tableConfig hmap columns tz) ⟨[], 0, 0⟩

/-- The end of `parseAndTransformCSV`: reject with
`"No valid data found in the CSV file"` when no transformed rows remain,
otherwise resolve with the columns and data. -/
def parseResult (tableConfig : List ColumnSpec) (tz : TzOffset)
    (headerRow : List String) (dataRows : List (List String)) :
    Except String (List String × List (List JsValue)) :=
  let hmap := buildHeaderIndexMap headerRow
  let columns := resolveColumns tableConfig hmap
  let st := processRows tableConfig hmap columns tz dataRows
  if st.transformedData.length = 0 then
    .error "No valid data found in the CSV file"
  else
    .ok (columns, st.transformedData)

end Csv

/-! ### Duplicate-column disambiguation
(`getTableConfigForAWorkSheet`, src/lib/getTableConfig.mjs, lines 36–57) -/

/-- Key `config.sqlColumn` used as a JS property key (an absent value becomes the
string `"undefined"` under property-key coercion). -/
def sqlKey (c : ColumnSpec) : String :=
  c.sqlColumn.getD "undefined"

/-- First pass: `columnNameCounts[baseName]`, counting non-skipped configs
per `sqlColumn`. -/
def columnNameCounts (tableConfig : List ColumnSpec) (s : String) : Nat :=
  (tableConfig.filter (fun c => !c.skip && sqlKey c = s)).length

/-- Second pass: walk the config in order with the `seenColumns` counters,
rewriting `sqlColumn` to `base_k` (k = 1-based occurrence) for every
non-skipped column whose name occurs more than once. -/
def addSuffixes (counts : String → Nat) : List ColumnSpec → (String → Nat) → List ColumnSpec
  | [], _ => []
  | c :: rest, seen =>
    if c.skip then c :: addSuffixes counts rest seen
    else
      let base := sqlKey c
      if 1 < counts base then
        let k := seen base + 1
        { c with sqlColumn := some (base ++ "_" ++ toString k) } ::
          addSuffixes counts rest (fun s => if s = base then k else seen s)
      else
        c :: addSuffixes counts rest seen

/-- The duplicate-name resolution of `getTableConfigForAWorkSheet`:
count, then suffix in first-seen order. -/
def resolveDuplicateColumns (tableConfig : List ColumnSpec) : List ColumnSpec :=
  addSuffixes (columnNameCounts tableConfig) tableConfig (fun _ => 0)

/-! ### The database and the Promote phase (`swapTables`, src/lib/db.mjs)

PostgreSQL is modelled as a name-keyed store of tables.  A table keeps its
column structure and its rows.  A session holds the committed store and, when
a transaction is open, a working copy; `BEGIN`/`COMMIT`/`ROLLBACK` have their
usual meaning.  Each SQL statement issued by `swapTables` is a `Stmt`; a
statement can fail intrinsically (e.g. dropping a missing table) or because
the environment injects a failure (`oracle`). -/

/-- A stored table: column structure plus rows. -/
structure Table where
  cols : List String
  rows : List (List JsValue)
  deriving DecidableEq, Repr

/-- The committed database: an association of table names to tables. -/
abbrev DBState := List (String × Table)

/-- Look a table up by name. -/
def DBState.lookup : DBState → String → Option Table
  | [], _ => none
  | (k, v) :: rest, t => if k = t then some v else DBState.lookup rest t

/-- Remove a table. -/
def DBState.erase : DBState → String → DBState
  | [], _ => []
  | (k, v) :: rest, t =>
    if k = t then DBState.erase rest t else (k, v) :: DBState.erase rest t

/-- Create or overwrite a table. -/
def DBState.set (db : DBState) (t : String) (tbl : Table) : DBState :=
  (t, tbl) :: db.erase t

/-- The SQL statements `swapTables` issues (plus its `tableExists` query). -/
inductive Stmt where
  | dropIfExists (t : String)
  | rename (old tgt : String)
  | createLike (t src : String)
  | insertSelect (dst src : String)
  | dropTable (t : String)
  | existsCheck (t : String)
  deriving DecidableEq, Repr

/-- Execute one statement against a database state, with PostgreSQL's
intrinsic failure conditions. -/
def applyStmt (st : Stmt) (db : DBState) : Except String DBState :=
  match st with
  | .dropIfExists t => .ok (db.erase t)
  | .rename old tgt =>
    match db.lookup old with
    | none => .error "relation to rename does not exist"
    | some tbl =>
      if (db.lookup tgt).isSome then .error "target relation already exists"
      else .ok ((db.erase old).set tgt tbl)
  | .createLike t src =>
    if (db.lookup t).isSome then .error "relation already exists"
    else
      match db.lookup src with
      | none => .error "source relation does not exist"
      | some s => .ok (db.set t { cols := s.cols, rows := [] })
  | .insertSelect dst src =>
    match db.lookup dst, db.lookup src with
    | some d, some s =>
      if d.cols.length = s.cols.length then
        .ok (db.set dst { cols := d.cols, rows := d.rows ++ s.rows })
      else .error "column count mismatch"
    | _, _ => .error "relation does not exist"
  | .dropTable t =>
    match db.lookup t with
    | none => .error "relation does not exist"
    | some _ => .ok (db.erase t)
  | .existsCheck _ => .ok db

/-- A client session: the committed store, and the transaction's working
state when one is open. -/
structure Session where
  committed : DBState
  tx : Option DBState
  deriving DecidableEq, Repr

/-- Statement `BEGIN`. -/
def Session.txBegin (s : Session) : Session :=
  { s with tx := some s.committed }

/-- Statement `ROLLBACK`: discard the working state. -/
def Session.txRollback (s : Session) : Session :=
  { s with tx := none }

/-- Statement `COMMIT`: publish the working state. -/
def Session.txCommit (s : Session) : Session :=
  match s.tx with
  | some db => { committed := db, tx := none }
  | none => s

/-- Run one statement in the session; `fail` injects an external failure. -/
def Session.runStmt (s : Session) (fail : Bool) (st : Stmt) : Except String Session :=
  if fail then .error "statement failed" else
  match s.tx with
  | some db => (applyStmt st db).map (fun db2 => { s with tx := some db2 })
  | none => (applyStmt st s.committed).map (fun db2 => { s with committed := db2 })

/-- The next injected-failure flag of the oracle (no flag means success). -/
def oracleHead : List Bool → Bool
  | [] => false
  | b :: _ => b

/-- The oracle after consuming one flag. -/
def oracleTail : List Bool → List Bool
  | [] => []
  | _ :: rest => rest

/-- Issue statements one after the other, as `swapTables` does with `await`;
stop at the first failure, returning the session at that point and the
error. -/
def execStmtsInTx : List Stmt → List Bool → Session → Session × Option String
  | [], _, s => (s, none)
  | st :: rest, oracle, s =>
    match s.runStmt (oracleHead oracle) st with
    | .ok s2 => execStmtsInTx rest (oracleTail oracle) s2
    | .error e => (s, some e)

/-- The same statement sequence on a bare database state, without any
session/transaction machinery (the reference meaning of the phase). -/
def execStmtsPure : List Stmt → List Bool → DBState → Except String DBState
  | [], _, db => .ok db
  | st :: rest, oracle, db =>
    match (if oracleHead oracle then Except.error "statement failed" else applyStmt st db) with
    | .ok db2 => execStmtsPure rest (oracleTail oracle) db2
    | .error e => .error e

/-- The statements `swapTables` issues, by mode (the merge-mode branch on
`tableExists` reads the state at the start of the transaction, before any
write). The rename to the unqualified table name within the same schema is
modelled as a rename to the destination's full name. -/
def swapStmts (tmpTableName originalTable : String) (shouldTruncate : Bool)
    (db : DBState) : List Stmt :=
  if shouldTruncate then
    [.dropIfExists originalTable, .rename tmpTableName originalTable]
  else
    .existsCheck originalTable ::
      (if (db.lookup originalTable).isSome then []
       else [.createLike originalTable tmpTableName]) ++
      [.insertSelect originalTable tmpTableName, .dropTable tmpTableName]

/-- Model of `swapTables(tmpTableName, originalTable, shouldTruncate)`:
`BEGIN`; issue the statements; `COMMIT` on success, `ROLLBACK` and re-throw
on any failure.  The returned `Option String` is the re-thrown error. -/
def swapTables (tmpTableName originalTable : String) (shouldTruncate : Bool)
    (oracle : List Bool) (db : DBState) : Session × Option String :=
  match execStmtsInTx (swapStmts tmpTableName originalTable shouldTruncate db)
      oracle (Session.txBegin { committed := db, tx := none }) with
  | (s1, none) => (s1.txCommit, none)
  | (s1, some e) => (s1.txRollback, some e)

/-! ### Concrete instances used in counterexamples and witnesses -/

/-- A string-typed column. -/
def strCfg : ColumnSpec := { header := "s", sqlColumn := some "s", fieldType := some "string" }

/-- A number-typed column. -/
def numCfg : ColumnSpec := { header := "n", sqlColumn := some "n", fieldType := some "number" }

/-- A timestamp-typed column. -/
def tsCfg : ColumnSpec := { header := "t", sqlColumn := some "t", fieldType := some "timestamp" }

/-- One of the duplicated `Evidence` columns of the duplicate-columns test. -/
def evCfg : ColumnSpec :=
  { header := "Evidence", sqlColumn := some "Evidence", fieldType := some "string" }

/-- Config entry `A → a` (string). -/
def cfgA : ColumnSpec := { header := "A", sqlColumn := some "a", fieldType := some "string" }

/-- Config entry `B → b` (string). -/
def cfgB : ColumnSpec := { header := "B", sqlColumn := some "b", fieldType := some "string" }

/-- Config entry `B → b` marked `skip`. -/
def cfgBskip : ColumnSpec :=
  { header := "B", sqlColumn := some "b", fieldType := some "string", skip := true }

/-- A staging table with one row. -/
def stgTable : Table := { cols := ["c"], rows := [[JsValue.str "staged"]] }

/-- A destination table with one prior row. -/
def dstTable : Table := { cols := ["c"], rows := [[JsValue.str "prior"]] }

/-- A database holding the staging table and the destination. -/
def dbBoth : DBState := [("s.t_tmp", stgTable), ("s.t", dstTable)]

/-! ## Theorems -/

/-- C5 counterexample: in the CSV transformer the null-sentinel check covers
only `''` and `'-'`; an absent value reaching a string-typed column is
returned as `undefined`, not coerced to null. -/
theorem nullSentinel_counterexample :
    Csv.transformValue noThrow JsValue.undefined strCfg 0 = JsValue.undefined ∧
    JsValue.undefined ≠ JsValue.null := by
  constructor
  · rfl
  · intro h
    exact absurd h (by decide)

/-- C5 (amended): the empty string and `'-'` coerce to null before any
type-specific logic for every field type in both transformers, and the xlsx
transformer also coerces `undefined` and `null`; in the CSV transformer an
absent value still becomes null for number- and timestamp-typed columns, but
is passed through as `undefined` by the string/default branch. -/
theorem nullSentinel_amended :
    (∀ (config : ColumnSpec) (tz : TzOffset),
      Csv.transformValue noThrow (.str "") config tz = .null ∧
      Csv.transformValue noThrow (.str "-") config tz = .null) ∧
    (∀ (config : ColumnSpec) (tz : TzOffset) (v : JsValue),
      v = .str "" ∨ v = .str "-" ∨ v = .undefined ∨ v = .null →
      Xlsx.transformValue noThrow v config tz = .null) ∧
    (∀ (config : ColumnSpec) (tz : TzOffset),
      fieldTypeLower config = some "number" →
      Csv.transformValue noThrow .undefined config tz = .null) ∧
    (∀ (config : ColumnSpec) (tz : TzOffset),
      fieldTypeLower config = some "timestamp" →
      Csv.transformValue noThrow .undefined config tz = .null) ∧
    (∀ (config : ColumnSpec) (tz : TzOffset),
      fieldTypeLower config ≠ some "number" →
      fieldTypeLower config ≠ some "timestamp" →
      Csv.transformValue noThrow .undefined config tz = .undefined) := by
  refine ⟨fun config tz => ⟨?_, ?_⟩, fun config tz v hv => ?_, fun config tz h => ?_,
          fun config tz h => ?_, fun config tz h1 h2 => ?_⟩
  · simp [Csv.transformValue, Csv.transformValueRun]
  · simp [Csv.transformValue, Csv.transformValueRun]
  · rcases hv with h | h | h | h <;>
      simp [h, Xlsx.transformValue, Xlsx.transformValueRun]
  · have hne : fieldTypeLower config ≠ some "timestamp" := by
      rw [h]; exact (by decide)
    simp [Csv.transformValue, Csv.transformValueRun, Csv.transformValueBody, h, hne,
      noThrow, jsToNumber]
  · simp [Csv.transformValue, Csv.transformValueRun, Csv.transformValueBody, h,
      noThrow, momentTzParse]
  · simp [Csv.transformValue, Csv.transformValueRun, Csv.transformValueBody, h1, h2,
      noThrow]

/-- C5 witness: the amended statement evaluated at concrete configurations. -/
theorem nullSentinel_amended_witness :
    Csv.transformValue noThrow (.str "") strCfg 0 = .null ∧
    Xlsx.transformValue noThrow .undefined strCfg 0 = .null ∧
    fieldTypeLower numCfg = some "number" ∧
    Csv.transformValue noThrow .undefined numCfg 0 = .null ∧
    Csv.transformValue noThrow .undefined tsCfg 0 = .null ∧
    Csv.transformValue noThrow .undefined strCfg 0 = .undefined :=
  ⟨(nullSentinel_amended.1 strCfg 0).1,
   nullSentinel_amended.2.1 strCfg 0 .undefined (by simp),
   by decide,
   nullSentinel_amended.2.2.1 numCfg 0 (by decide),
   nullSentinel_amended.2.2.2.1 tsCfg 0 (by decide),
   nullSentinel_amended.2.2.2.2 strCfg 0 (by decide) (by decide)⟩

/-- C6: a `YYYY-MM-DD HH:mm` timestamp is interpreted in the caller-supplied
timezone and converted to an absolute instant — `"2025-02-05 19:20"` at
Asia/Kolkata (UTC+05:30) is the instant 2025-02-05T13:50:00Z — and an
unparseable or invalid date yields null. -/
theorem timestamp_kolkata_and_invalid_null :
    Csv.transformValue noThrow (.str "2025-02-05 19:20") tsCfg 330 =
      .str "2025-02-05T13:50:00.000Z" ∧
    ∀ (s : String) (tz : TzOffset), momentTzParse (.str s) tz = none →
      Csv.transformValue noThrow (.str s) tsCfg tz = .null := by
  constructor
  · rfl
  · intro s tz h
    have hty : fieldTypeLower tsCfg = some "timestamp" := by decide
    by_cases hs : s = ""
    · simp [hs, Csv.transformValue, Csv.transformValueRun]
    · by_cases hs2 : s = "-"
      · simp [hs2, Csv.transformValue, Csv.transformValueRun]
      · simp [Csv.transformValue, Csv.transformValueRun, Csv.transformValueBody,
          hs, hs2, hty, noThrow, h]

/-- C6 witness: the invalid-date half applied at a concrete unparseable
input (month 99 overflows, so the moment is invalid). -/
theorem timestamp_kolkata_witness :
    momentTzParse (.str "2025-99-99 99:99") 330 = none ∧
    Csv.transformValue noThrow (.str "2025-99-99 99:99") tsCfg 330 = .null :=
  ⟨by decide,
   timestamp_kolkata_and_invalid_null.2 "2025-99-99 99:99" 330 (by decide)⟩

/-- C7: `transformValue` is total — its run never propagates an exception
(whatever the type-specific branches throw), and every thrown error is
caught and turned into null. -/
theorem transformValue_total (oracle : ThrowOracle) (v : JsValue)
    (config : ColumnSpec) (tz : TzOffset) :
    (∃ out, Csv.transformValueRun oracle v config tz = .ok out) ∧
    (∀ e, Csv.transformValueBody oracle v config tz = .error e →
      Csv.transformValueRun oracle v config tz = .ok .null) := by
  constructor
  · unfold Csv.transformValueRun
    split
    · exact ⟨.null, rfl⟩
    · rcases h : Csv.transformValueBody oracle v config tz with e | out
      · exact ⟨.null, rfl⟩
      · exact ⟨out, rfl⟩
  · intro e he
    unfold Csv.transformValueRun
    split
    · rfl
    · rw [he]

/-- C7 witness: with every branch made to throw, the run still returns
(`ok`), and the thrown error was converted to null. -/
theorem transformValue_total_witness :
    (∃ out, Csv.transformValueRun ⟨true, true, true⟩ (.str "x") tsCfg 0 = .ok out) ∧
    Csv.transformValueBody ⟨true, true, true⟩ (.str "x") tsCfg 0 =
      .error "timestamp branch threw" ∧
    Csv.transformValueRun ⟨true, true, true⟩ (.str "x") tsCfg 0 = .ok .null :=
  ⟨(transformValue_total ⟨true, true, true⟩ (.str "x") tsCfg 0).1,
   rfl,
   (transformValue_total ⟨true, true, true⟩ (.str "x") tsCfg 0).2
     "timestamp branch threw" rfl⟩

/-- C8: a number-typed cell whose text is not a valid numeric literal
(`'-'` and `''` via the sentinel, anything `Number(...)` maps to NaN via the
NaN check) transforms to null, and the run raises no error. -/
theorem number_non_numeric_null (s : String) (config : ColumnSpec) (tz : TzOffset)
    (hty : fieldTypeLower config = some "number")
    (hnon : s = "" ∨ s = "-" ∨ jsStringToNumber s = none) :
    Csv.transformValueRun noThrow (.str s) config tz = .ok .null := by
  rcases hnon with h | h | h
  · simp [h, Csv.transformValueRun]
  · simp [h, Csv.transformValueRun]
  · by_cases hs : s = ""
    · simp [hs, Csv.transformValueRun]
    · by_cases hs2 : s = "-"
      · simp [hs2, Csv.transformValueRun]
      · have hne : fieldTypeLower config ≠ some "timestamp" := by
          rw [hty]; exact (by decide)
        simp [Csv.transformValueRun, Csv.transformValueBody, hs, hs2, hty, hne,
          noThrow, jsToNumber, h]

/-- C8 witness: `"N/A"` is not numeric and transforms to null without
raising. -/
theorem number_non_numeric_null_witness :
    fieldTypeLower numCfg = some "number" ∧
    jsStringToNumber "N/A" = none ∧
    Csv.transformValueRun noThrow (.str "N/A") numCfg 0 = .ok .null :=
  ⟨by decide, by decide,
   number_non_numeric_null "N/A" numCfg 0 (by decide) (Or.inr (Or.inr (by decide)))⟩

/-! ### Duplicate-column claims (C2) -/

theorem addSuffixes_uniform (counts : String → Nat) (s : String) (hc : 1 < counts s) :
    ∀ (cs : List ColumnSpec) (seen : String → Nat),
      (∀ c ∈ cs, c.skip = false ∧ sqlKey c = s) →
      (addSuffixes counts cs seen).map sqlKey =
        (List.range cs.length).map (fun i => s ++ "_" ++ toString (seen s + i + 1)) := by
  intro cs
  induction cs with
  | nil => intro seen _; simp [addSuffixes]
  | cons c rest ih =>
    intro seen hall
    obtain ⟨hskip, hkey⟩ := hall c (by simp)
    have hrest : ∀ x ∈ rest, x.skip = false ∧ sqlKey x = s := fun x hx =>
      hall x (List.mem_cons_of_mem _ hx)
    simp only [addSuffixes, hskip, Bool.false_eq_true, if_false, hkey, hc, if_true]
    rw [List.map_cons, ih (fun t => if t = s then seen s + 1 else seen t) hrest]
    simp only [List.length_cons, List.range_succ_eq_map, List.map_cons, List.map_map,
      List.cons.injEq]
    constructor
    · simp [sqlKey]
    · apply List.map_congr_left
      intro i _
      simp only [Function.comp_apply, eq_self_iff_true, if_true, Nat.succ_eq_add_one]
      have harg : seen s + 1 + i + 1 = seen s + (i + 1) + 1 := by omega
      rw [harg]

/-- C2 counterexample: three naturally duplicate `Evidence` columns all
receive a suffix — the first occurrence does not keep the bare name, and
nothing is lowercased, so the resolution is `Evidence_1, Evidence_2,
Evidence_3`, not `evidence, evidence_2, evidence_3`. -/
theorem duplicateColumns_counterexample :
    (resolveDuplicateColumns [evCfg, evCfg, evCfg]).map sqlKey =
      ["Evidence_1", "Evidence_2", "Evidence_3"] ∧
    (resolveDuplicateColumns [evCfg, evCfg, evCfg]).map sqlKey ≠
      ["evidence", "evidence_2", "evidence_3"] ∧
    (∀ c ∈ resolveDuplicateColumns [evCfg, evCfg, evCfg], sqlKey c ≠ "Evidence") ∧
    ((resolveDuplicateColumns [evCfg, evCfg, evCfg]).map sqlKey).Nodup := by
  decide

/-- C2 (amended): for n naturally duplicate destination identifiers, every
occurrence (including the first) is suffixed, `name_1 … name_n`, in
first-seen order. -/
theorem duplicateColumns_all_suffixed (s : String) (cs : List ColumnSpec)
    (hall : ∀ c ∈ cs, c.skip = false ∧ c.sqlColumn = some s)
    (hdup : 2 ≤ cs.length) :
    (resolveDuplicateColumns cs).map sqlKey =
      (List.range cs.length).map (fun i => s ++ "_" ++ toString (i + 1)) := by
  have hall2 : ∀ c ∈ cs, c.skip = false ∧ sqlKey c = s := fun c hc =>
    ⟨(hall c hc).1, by simp [sqlKey, (hall c hc).2]⟩
  have hcount : columnNameCounts cs s = cs.length := by
    unfold columnNameCounts
    have : cs.filter (fun c => !c.skip && sqlKey c = s) = cs := by
      apply List.filter_eq_self.mpr
      intro c hc
      simp [(hall2 c hc).1, (hall2 c hc).2]
    rw [this]
  have hc : 1 < columnNameCounts cs s := by omega
  have := addSuffixes_uniform (columnNameCounts cs) s hc cs (fun _ => 0) hall2
  rw [resolveDuplicateColumns, this]
  simp

/-- C2 witness: the amended statement at the three `Evidence` columns. -/
theorem duplicateColumns_all_suffixed_witness :
    (∀ c ∈ [evCfg, evCfg, evCfg], c.skip = false ∧ c.sqlColumn = some "Evidence") ∧
    2 ≤ ([evCfg, evCfg, evCfg] : List ColumnSpec).length ∧
    (resolveDuplicateColumns [evCfg, evCfg, evCfg]).map sqlKey =
      (List.range ([evCfg, evCfg, evCfg] : List ColumnSpec).length).map
        (fun i => "Evidence" ++ "_" ++ toString (i + 1)) :=
  ⟨by decide, by decide,
   duplicateColumns_all_suffixed "Evidence" [evCfg, evCfg, evCfg] (by decide) (by decide)⟩

/-! ### CSV row-policy claims (C4, C9, C10) -/

theorem processRows_go (tableConfig : List ColumnSpec) (hmap : String → Option Nat)
    (columns : List String) (tz : TzOffset) :
    ∀ (rows : List (List String)) (st : Csv.LoopState),
      rows.foldl (Csv.processDataRow tableConfig hmap columns tz) st =
        { transformedData := st.transformedData ++
            (rows.filter (fun r => !Csv.isBlankRow r &&
              !(Csv.transformRow tableConfig hmap columns tz r).all (· = JsValue.null))).map
              (Csv.transformRow tableConfig hmap columns tz),
          emptyRows := st.emptyRows + (rows.filter (fun r => Csv.isBlankRow r)).length,
          skippedRows := st.skippedRows +
            (rows.filter (fun r => !Csv.isBlankRow r &&
              (Csv.transformRow tableConfig hmap columns tz r).all (· = JsValue.null))).length } := by
  intro rows
  induction rows with
  | nil => intro st; simp
  | cons r rest ih =>
    intro st
    rw [List.foldl_cons, ih]
    by_cases hb : Csv.isBlankRow r
    · simp [Csv.processDataRow, hb, List.filter_cons]
      all_goals omega
    · by_cases hn : (Csv.transformRow tableConfig hmap columns tz r).all (· = JsValue.null)
      · simp [Csv.processDataRow, hb, hn, List.filter_cons]
        all_goals omega
      · simp [Csv.processDataRow, hb, hn, List.filter_cons]

/-- C4 counterexample: the row `["-", "-"]` is not raw-blank, every one of
its transformed values is null, and the loop counts it in `skippedRows`,
leaving `emptyRows` at 0 — not the other way around. -/
theorem rowDiscard_counterexample :
    Csv.isBlankRow ["-", "-"] = false ∧
    (Csv.transformRow [cfgA, cfgB] (Csv.buildHeaderIndexMap ["A", "B"])
      (Csv.resolveColumns [cfgA, cfgB] (Csv.buildHeaderIndexMap ["A", "B"])) 0
      ["-", "-"]).all (· = JsValue.null) = true ∧
    Csv.processRows [cfgA, cfgB] (Csv.buildHeaderIndexMap ["A", "B"])
      (Csv.resolveColumns [cfgA, cfgB] (Csv.buildHeaderIndexMap ["A", "B"])) 0
      [["-", "-"]] =
      { transformedData := [], emptyRows := 0, skippedRows := 1 } := by
  decide

/-- C4 (amended): the loop's exact discard policy — `emptyRows` counts the
raw-blank rows, `skippedRows` counts the rows that are not raw-blank but
whose every transformed value is null, and exactly the remaining rows are
loaded (so a row with only some null values is kept). -/
theorem rowDiscard_policy (tableConfig : List ColumnSpec) (hmap : String → Option Nat)
    (columns : List String) (tz : TzOffset) (rows : List (List String)) :
    Csv.processRows tableConfig hmap columns tz rows =
      { transformedData :=
          (rows.filter (fun r => !Csv.isBlankRow r &&
            !(Csv.transformRow tableConfig hmap columns tz r).all (· = JsValue.null))).map
            (Csv.transformRow tableConfig hmap columns tz),
        emptyRows := (rows.filter (fun r => Csv.isBlankRow r)).length,
        skippedRows :=
          (rows.filter (fun r => !Csv.isBlankRow r &&
            (Csv.transformRow tableConfig hmap columns tz r).all
              (· = JsValue.null))).length } := by
  rw [Csv.processRows, processRows_go]
  simp

/-- C9 counterexample: the CSV column resolver does not consult `skip`; with
both configured headers present (no duplicates, none missing) and one config
entry marked `skip`, the resolved list has 2 entries while only 1 ColumnSpec
is non-skipped. -/
theorem schemaResolution_counterexample :
    (∀ c ∈ ([cfgA, cfgBskip] : List ColumnSpec),
      ((Csv.buildHeaderIndexMap ["A", "B"]) c.header).isSome = true) ∧
    (Csv.resolveColumns [cfgA, cfgBskip] (Csv.buildHeaderIndexMap ["A", "B"])).length = 2 ∧
    (([cfgA, cfgBskip] : List ColumnSpec).filter (fun c => !c.skip)).length = 1 ∧
    (Csv.resolveColumns [cfgA, cfgBskip] (Csv.buildHeaderIndexMap ["A", "B"])).length ≠
      (([cfgA, cfgBskip] : List ColumnSpec).filter (fun c => !c.skip)).length := by
  decide

/-- C9 (amended): when the header row contains every configured header, the
resolved column list has exactly one entry per configured ColumnSpec —
skipped or not. -/
theorem schemaResolution_count (tableConfig : List ColumnSpec)
    (hmap : String → Option Nat)
    (hall : ∀ c ∈ tableConfig, (hmap c.header).isSome = true) :
    (Csv.resolveColumns tableConfig hmap).length = tableConfig.length := by
  induction tableConfig with
  | nil => simp [Csv.resolveColumns]
  | cons c rest ih =>
    have hc := hall c (by simp)
    have hrest : ∀ x ∈ rest, (hmap x.header).isSome = true := fun x hx =>
      hall x (List.mem_cons_of_mem _ hx)
    simp only [Csv.resolveColumns, List.filterMap_cons, hc, if_true, List.length_cons]
    exact congrArg (· + 1) (ih hrest)

/-- C9 witness: the amended count at a two-column configuration with one
skipped entry. -/
theorem schemaResolution_count_witness :
    (∀ c ∈ ([cfgA, cfgBskip] : List ColumnSpec),
      ((Csv.buildHeaderIndexMap ["A", "B"]) c.header).isSome = true) ∧
    (Csv.resolveColumns [cfgA, cfgBskip] (Csv.buildHeaderIndexMap ["A", "B"])).length =
      ([cfgA, cfgBskip] : List ColumnSpec).length :=
  ⟨by decide, schemaResolution_count _ _ (by decide)⟩

/-- C10: when every data row is raw-blank or transforms to an all-null row,
`parseAndTransformCSV` rejects the whole run with
`"No valid data found in the CSV file"`. -/
theorem noValidData_rejects (tableConfig : List ColumnSpec) (tz : TzOffset)
    (headerRow : List String) (dataRows : List (List String))
    (hall : ∀ r ∈ dataRows, Csv.isBlankRow r = true ∨
      (Csv.transformRow tableConfig (Csv.buildHeaderIndexMap headerRow)
        (Csv.resolveColumns tableConfig (Csv.buildHeaderIndexMap headerRow)) tz r).all
        (· = JsValue.null) = true) :
    Csv.parseResult tableConfig tz headerRow dataRows =
      .error "No valid data found in the CSV file" := by
  simp only [Csv.parseResult]
  rw [Csv.processRows, processRows_go]
  have hfil : dataRows.filter (fun r => !Csv.isBlankRow r &&
      !(Csv.transformRow tableConfig (Csv.buildHeaderIndexMap headerRow)
        (Csv.resolveColumns tableConfig (Csv.buildHeaderIndexMap headerRow)) tz r).all
        (· = JsValue.null)) = [] := by
    apply List.filter_eq_nil_iff.mpr
    intro r hr
    rcases hall r hr with h | h <;> simp [h]
  simp [hfil]

/-- C10 witness: one blank row and one all-dash row are both discarded, and
the run is rejected. -/
theorem noValidData_rejects_witness :
    (∀ r ∈ [[""], ["-"]], Csv.isBlankRow r = true ∨
      (Csv.transformRow [cfgA] (Csv.buildHeaderIndexMap ["A"])
        (Csv.resolveColumns [cfgA] (Csv.buildHeaderIndexMap ["A"])) 0 r).all
        (· = JsValue.null) = true) ∧
    Csv.parseResult [cfgA] 0 ["A"] [[""], ["-"]] =
      .error "No valid data found in the CSV file" :=
  ⟨by decide, noValidData_rejects [cfgA] 0 ["A"] [[""], ["-"]] (by decide)⟩

/-! ### Promote-phase claims (C1, C3) -/

theorem lookup_erase_self {db : DBState} {t : String} :
    (db.erase t).lookup t = none := by
  induction db with
  | nil => rfl
  | cons p rest ih =>
    obtain ⟨k, v⟩ := p
    by_cases h : k = t
    · simpa [DBState.erase, h] using ih
    · simpa [DBState.erase, DBState.lookup, h] using ih

theorem lookup_erase_ne {db : DBState} {t u : String} (h : u ≠ t) :
    (db.erase t).lookup u = db.lookup u := by
  induction db with
  | nil => rfl
  | cons p rest ih =>
    obtain ⟨k, v⟩ := p
    by_cases hkt : k = t
    · have hku : ¬ k = u := fun hk => h (hk.symm.trans hkt)
      simpa [DBState.erase, DBState.lookup, hkt, hku, h, Ne.symm h] using ih
    · by_cases hku : k = u
      · simp [DBState.erase, DBState.lookup, hkt, hku, h, Ne.symm h]
      · simpa [DBState.erase, DBState.lookup, hkt, hku, h, Ne.symm h] using ih

theorem lookup_set_self {db : DBState} {t : String} {tbl : Table} :
    (db.set t tbl).lookup t = some tbl := by
  simp [DBState.set, DBState.lookup]

theorem lookup_set_ne {db : DBState} {t u : String} {tbl : Table} (h : u ≠ t) :
    (db.set t tbl).lookup u = db.lookup u := by
  have htu : ¬ t = u := fun hk => h hk.symm
  simp only [DBState.set, DBState.lookup, htu, if_false]
  exact lookup_erase_ne h

theorem execStmtsInTx_spec (stmts : List Stmt) :
    ∀ (oracle : List Bool) (c db : DBState),
      (∀ db2, execStmtsPure stmts oracle db = .ok db2 →
        execStmtsInTx stmts oracle { committed := c, tx := some db } =
          ({ committed := c, tx := some db2 }, none)) ∧
      (∀ e, execStmtsPure stmts oracle db = .error e →
        ∃ dbf, execStmtsInTx stmts oracle { committed := c, tx := some db } =
          ({ committed := c, tx := some dbf }, some e)) := by
  induction stmts with
  | nil =>
    intro oracle c db
    constructor
    · intro db2 h
      simp only [execStmtsPure, Except.ok.injEq] at h
      rw [← h]
      rfl
    · intro e h
      simp [execStmtsPure] at h
  | cons st rest ih =>
    intro oracle c db
    by_cases hf : oracleHead oracle = true
    · constructor
      · intro db2 h
        rw [execStmtsPure] at h
        simp [hf] at h
      · intro e h
        rw [execStmtsPure] at h
        simp only [hf, if_true] at h
        refine ⟨db, ?_⟩
        rw [execStmtsInTx]
        simp only [Session.runStmt, hf, if_true]
        cases h
        rfl
    · have hf2 : oracleHead oracle = false := by
        cases hv : oracleHead oracle
        · rfl
        · exact absurd hv hf
      rcases ha : applyStmt st db with e1 | db1
      · constructor
        · intro db2 h
          rw [execStmtsPure] at h
          simp [hf2, ha] at h
        · intro e h
          rw [execStmtsPure] at h
          simp only [hf2, Bool.false_eq_true, if_false, ha] at h
          refine ⟨db, ?_⟩
          rw [execStmtsInTx]
          simp only [Session.runStmt, hf2, Bool.false_eq_true, if_false, ha]
          cases h
          rfl
      · constructor
        · intro db2 h
          rw [execStmtsPure] at h
          simp only [hf2, Bool.false_eq_true, if_false, ha] at h
          rw [execStmtsInTx]
          simp only [Session.runStmt, hf2, Bool.false_eq_true, if_false, ha, Except.map]
          exact (ih (oracleTail oracle) c db1).1 db2 h
        · intro e h
          rw [execStmtsPure] at h
          simp only [hf2, Bool.false_eq_true, if_false, ha] at h
          rw [execStmtsInTx]
          simp only [Session.runStmt, hf2, Bool.false_eq_true, if_false, ha, Except.map]
          exact (ih (oracleTail oracle) c db1).2 e h

theorem swapTables_run_spec (tmp orig : String) (tr : Bool) (oracle : List Bool)
    (db : DBState) :
    swapTables tmp orig tr oracle db =
      match execStmtsPure (swapStmts tmp orig tr db) oracle db with
      | .ok db2 => ({ committed := db2, tx := none }, none)
      | .error e => ({ committed := db, tx := none }, some e) := by
  have hbegin : Session.txBegin { committed := db, tx := none } =
      { committed := db, tx := some db } := rfl
  rw [swapTables, hbegin]
  rcases h : execStmtsPure (swapStmts tmp orig tr db) oracle db with e | db2
  · obtain ⟨dbf, hr⟩ := (execStmtsInTx_spec (swapStmts tmp orig tr db) oracle db db).2 e h
    rw [hr]
    rfl
  · have hr := (execStmtsInTx_spec (swapStmts tmp orig tr db) oracle db db).1 db2 h
    rw [hr]
    rfl

/-- C1: in both modes, any statement failure during the Promote phase rolls
the transaction back — the committed database, in particular the destination
table, is exactly its pre-Promote state — and the error is re-thrown; on
success the transaction commits the full effect of the issued statements. -/
theorem swapTables_atomicity (tmp orig : String) (tr : Bool) (oracle : List Bool)
    (db : DBState) :
    ((swapTables tmp orig tr oracle db).2 = none →
      ∃ db2, execStmtsPure (swapStmts tmp orig tr db) oracle db = .ok db2 ∧
        (swapTables tmp orig tr oracle db).1 = { committed := db2, tx := none }) ∧
    (∀ e, (swapTables tmp orig tr oracle db).2 = some e →
      execStmtsPure (swapStmts tmp orig tr db) oracle db = .error e ∧
      (swapTables tmp orig tr oracle db).1 = { committed := db, tx := none }) := by
  rw [swapTables_run_spec]
  rcases h : execStmtsPure (swapStmts tmp orig tr db) oracle db with e | db2
  · constructor
    · intro hc
      simp at hc
    · intro e2 he
      simp only [Option.some.injEq] at he
      rw [he]
      exact ⟨rfl, rfl⟩
  · constructor
    · intro _
      exact ⟨db2, rfl, rfl⟩
    · intro e2 he
      simp at he

/-- C1 witness: an injected failure on the first statement leaves the
committed database untouched and re-throws; with no failure the swap
commits. -/
theorem swapTables_atomicity_witness :
    (swapTables "s.t_tmp" "s.t" false [true] dbBoth).2 = some "statement failed" ∧
    execStmtsPure (swapStmts "s.t_tmp" "s.t" false dbBoth) [true] dbBoth =
      .error "statement failed" ∧
    (swapTables "s.t_tmp" "s.t" false [true] dbBoth).1 =
      { committed := dbBoth, tx := none } :=
  ⟨by decide,
   ((swapTables_atomicity "s.t_tmp" "s.t" false [true] dbBoth).2
     "statement failed" (by decide)).1,
   ((swapTables_atomicity "s.t_tmp" "s.t" false [true] dbBoth).2
     "statement failed" (by decide)).2⟩

/-- C3: merge mode creates the destination only when absent (with the
staging table's structure), appends all staging rows to the destination's
prior rows unchanged (no deduplication, no upsert, no prior row removed or
modified), drops the staging table, and touches no other table. -/
theorem swapTables_merge_effect (tmp orig : String) (db : DBState) (stg : Table)
    (hne : tmp ≠ orig)
    (hstg : db.lookup tmp = some stg)
    (hcompat : (db.lookup orig).all
      (fun d => d.cols.length == stg.cols.length) = true) :
    (swapTables tmp orig false [] db).2 = none ∧
    (swapTables tmp orig false [] db).1.committed.lookup orig =
      some { cols := ((db.lookup orig).map Table.cols).getD stg.cols,
             rows := ((db.lookup orig).map Table.rows).getD [] ++ stg.rows } ∧
    (swapTables tmp orig false [] db).1.committed.lookup tmp = none ∧
    (∀ t, t ≠ orig → t ≠ tmp →
      (swapTables tmp orig false [] db).1.committed.lookup t = db.lookup t) := by
  rw [swapTables_run_spec]
  rcases hd : db.lookup orig with _ | d
  · have hrun : execStmtsPure (swapStmts tmp orig false db) [] db =
        .ok (((db.set orig { cols := stg.cols, rows := [] }).set orig
          { cols := stg.cols, rows := stg.rows }).erase tmp) := by
      simp [swapStmts, hd, execStmtsPure, applyStmt, oracleHead, oracleTail, hstg,
        lookup_set_self, lookup_set_ne, hne]
    rw [hrun]
    refine ⟨rfl, ?_, ?_, ?_⟩
    · simp [hd, lookup_erase_ne (Ne.symm hne), lookup_set_self]
    · simp [lookup_erase_self]
    · intro t h1 h2
      simp [lookup_erase_ne h2, lookup_set_ne h1]
  · have hlen : d.cols.length = stg.cols.length := by
      rw [hd] at hcompat
      simpa using hcompat
    have hrun : execStmtsPure (swapStmts tmp orig false db) [] db =
        .ok ((db.set orig { cols := d.cols, rows := d.rows ++ stg.rows }).erase tmp) := by
      simp [swapStmts, hd, execStmtsPure, applyStmt, oracleHead, oracleTail, hstg, hlen,
        lookup_set_self, lookup_set_ne, hne]
    rw [hrun]
    refine ⟨rfl, ?_, ?_, ?_⟩
    · simp [hd, lookup_erase_ne (Ne.symm hne), lookup_set_self]
    · simp [lookup_erase_self]
    · intro t h1 h2
      simp [lookup_erase_ne h2, lookup_set_ne h1]

/-- C3 witness: the merge effect at a concrete database holding a staging
table and a destination with one prior row. -/
theorem swapTables_merge_effect_witness :
    "s.t_tmp" ≠ "s.t" ∧
    dbBoth.lookup "s.t_tmp" = some stgTable ∧
    (dbBoth.lookup "s.t").all
      (fun d => d.cols.length == stgTable.cols.length) = true ∧
    ((swapTables "s.t_tmp" "s.t" false [] dbBoth).2 = none ∧
    (swapTables "s.t_tmp" "s.t" false [] dbBoth).1.committed.lookup "s.t" =
      some { cols := ((dbBoth.lookup "s.t").map Table.cols).getD stgTable.cols,
             rows := ((dbBoth.lookup "s.t").map Table.rows).getD [] ++ stgTable.rows } ∧
    (swapTables "s.t_tmp" "s.t" false [] dbBoth).1.committed.lookup "s.t_tmp" = none ∧
    (∀ t, t ≠ "s.t" → t ≠ "s.t_tmp" →
      (swapTables "s.t_tmp" "s.t" false [] dbBoth).1.committed.lookup t =
        dbBoth.lookup t)) :=
  ⟨by decide, by decide, by decide,
   swapTables_merge_effect "s.t_tmp" "s.t" dbBoth stgTable
     (by decide) (by decide) (by decide)⟩

end XlsxToPsql
